import Mathlib

/-!
Shallow embedding of the network-aware data-fetch cache implemented in
src/src-tauri/src/lib.rs: connectivity probing, a one-file-per-key local
JSON store, a fetch orchestrator with local fallback and forced refresh,
and cache maintenance (listing timestamps, clearing files).

Effects are made explicit: the HTTP transport is an oracle mapping a URL
to the outcome of a GET probe, the single data-URL request is an explicit
outcome value, the filesystem is a map from key to file content (for the
per-key store) or a list of directory entries (for the maintenance
operations that enumerate the data directory), and the wall clock is an
explicit integer parameter.
-/

namespace Routine

/-- JSON values, mirroring serde_json Value. Numbers are modeled as
integers plus a separate constructor for non-integer numbers, which is
all the code distinguishes: the only numeric query made is as_i64. -/
inductive Json where
  | null
  | bool (b : Bool)
  | num (n : Int)
  | nonIntNum
  | str (s : String)
  | arr (elems : List Json)
  | obj (fields : List (String × Json))

/-- Field lookup on a JSON value, mirroring Value::get(key): some value
for a present key of an object, none otherwise. -/
def jsonGet : Json → String → Option Json
  | .obj fields, k => fields.lookup k
  | _, _ => none

/-- Value::as_i64: the integer of an integer number, none otherwise. -/
def jsonAsI64 : Json → Option Int
  | .num n => some n
  | _ => none

/-- Content of a cache file as the store code observes it: a file whose
text parses as JSON (carrying the parsed value), a file whose text fails
to parse (carrying the parse error message), or a file that cannot be
read at all (carrying the read error message). -/
inductive FileContent where
  | json (j : Json)
  | raw (e : String)
  | unreadable (e : String)

/-- NetworkStatus from lib.rs. -/
structure NetworkStatus where
  is_online : Bool
  can_reach_website : Bool
deriving DecidableEq

/-- FetchResult from lib.rs: data, source tag ("online" or "local"), and
an epoch-seconds timestamp. -/
structure FetchResult where
  data : Json
  source : String
  timestamp : Int

/-- The configured service endpoint (WEBSITE_URL in lib.rs). -/
def WEBSITE_URL : String := "https://accounted.th3void.com"

/-- The ordered probe endpoints of check_internet_connectivity. -/
def test_urls : List String :=
  ["https://www.google.com", "https://1.1.1.1", "https://8.8.8.8"]

/-- Transport oracle: for a URL, none when the GET does not complete
(build, connection or timeout failure), some s when it completes with
HTTP status s. The probing code only tests completion (is_ok), never
the status. -/
def Transport : Type := String → Option Nat

/-- The probe loop of check_internet_connectivity: walk the URL list,
return true at the first URL whose request completes, false after the
list is exhausted. Also returns the list of URLs actually probed. -/
def probeUrls (transport : Transport) : List String → Bool × List String
  | [] => (false, [])
  | u :: rest =>
    if (transport u).isSome then (true, [u])
    else
      let r := probeUrls transport rest
      (r.1, u :: r.2)

/-- check_internet_connectivity from lib.rs: probe test_urls in order,
true on first completed request (any status), false if all fail. -/
def check_internet_connectivity (transport : Transport) : Bool × List String :=
  probeUrls transport test_urls

/-- check_website_connectivity from lib.rs: one GET against WEBSITE_URL,
true iff the request completes (status not inspected). -/
def check_website_connectivity (transport : Transport) : Bool :=
  (transport WEBSITE_URL).isSome

/-- Outcome of check_network_status together with the observable probe
trace: which internet endpoints were probed, and how many probes were
made against the target website. -/
structure NetworkCheck where
  result : Except String NetworkStatus
  internetProbes : List String
  websiteProbes : Nat

/-- check_network_status from lib.rs: compute is_online first; probe the
website only when online, otherwise short-circuit can_reach_website to
false; always return Ok. -/
def check_network_status (transport : Transport) : NetworkCheck :=
  let ic := check_internet_connectivity transport
  if ic.1 then
    { result := .ok { is_online := ic.1, can_reach_website := check_website_connectivity transport }
      internetProbes := ic.2
      websiteProbes := 1 }
  else
    { result := .ok { is_online := ic.1, can_reach_website := false }
      internetProbes := ic.2
      websiteProbes := 0 }

/-- The per-key filesystem view used by the store: for key k, the content
of file k.json in the data directory, none when that file does not
exist. -/
def Store : Type := String → Option FileContent

/-- Filesystem environment of the store operations: whether get_data_dir
succeeds (app dir resolution and create_dir_all), and whether fs::write
succeeds. -/
structure StoreEnv where
  dirOk : Bool
  writeOk : Bool

/-- get_data_file_path from lib.rs: resolve and create the data
directory, then return the path key.json (modeled by the key itself). -/
def get_data_file_path (env : StoreEnv) (key : String) : Except String String :=
  if env.dirOk then .ok (key ++ ".json")
  else .error "Failed to create data directory"

/-- save_local_data from lib.rs: wrap the value as
obj [data, timestamp := now], pretty-print (serialization of a Value
always succeeds) and write the file; returns the updated store. Fails
when the data directory or the write fails. -/
def save_local_data (env : StoreEnv) (now : Int) (store : Store)
    (key : String) (data : Json) : Except String Store :=
  match get_data_file_path env key with
  | .error e => .error e
  | .ok _ =>
    let data_with_timestamp := Json.obj [("data", data), ("timestamp", Json.num now)]
    if env.writeOk then
      .ok (fun k => if k = key then some (.json data_with_timestamp) else store k)
    else .error "Failed to write data file"

/-- load_local_data from lib.rs: none when the file does not exist; a
read failure or a JSON parse failure is a hard error; otherwise build a
FetchResult with source "local", a missing or non-integer timestamp
field coerced to 0, and a missing data field coerced to null. -/
def load_local_data (env : StoreEnv) (store : Store) (key : String) :
    Except String (Option FetchResult) :=
  match get_data_file_path env key with
  | .error e => .error e
  | .ok _ =>
    match store key with
    | none => .ok none
    | some (.unreadable e) => .error ("Failed to read data file: " ++ e)
    | some (.raw e) => .error ("Failed to parse data file: " ++ e)
    | some (.json parsed) =>
      let timestamp := ((jsonGet parsed "timestamp").bind jsonAsI64).getD 0
      let data := (jsonGet parsed "data").getD Json.null
      .ok (some { data := data, source := "local", timestamp := timestamp })

/-- Outcome of the single GET performed by fetch_online_data against the
data URL with the supplied headers: client build failure, send failure
(network error or timeout), or a completed response with a status code
and a body whose JSON parse either succeeds or fails with a message. -/
inductive HttpOutcome where
  | buildErr (e : String)
  | sendErr (e : String)
  | resp (status : Nat) (body : Except String Json)

/-- StatusCode::is_success from reqwest: 2xx. -/
def status_is_success (status : Nat) : Bool :=
  200 ≤ status && status < 300

/-- fetch_online_data from lib.rs: propagate client build and send
errors, require a 2xx status, then require the body to parse as JSON. -/
def fetch_online_data (outcome : HttpOutcome) : Except String Json :=
  match outcome with
  | .buildErr e => .error ("Failed to create HTTP client: " ++ e)
  | .sendErr e => .error ("Network request failed: " ++ e)
  | .resp status body =>
    if !status_is_success status then
      .error ("HTTP error: " ++ toString status)
    else
      match body with
      | .error e => .error ("Failed to parse JSON response: " ++ e)
      | .ok j => .ok j

/-- Result of an orchestrator call: the returned value or error, the
store after the call, and the observable effect counts — remote GETs
against the data URL and local-store load attempts. -/
structure FetchOutput where
  result : Except String FetchResult
  store : Store
  remoteAttempts : Nat
  fallbackLoads : Nat

/-- The code after the reachability block of fetch_data_with_fallback:
load the key from the local store; a present value is returned as is, an
absent one becomes the no-data error, a store error is propagated with
context. -/
def fallback_load (env : StoreEnv) (store : Store) (key : String) :
    Except String FetchResult :=
  match load_local_data env store key with
  | .ok (some local_data) => .ok local_data
  | .ok none => .error "No data available online or locally"
  | .error e => .error ("Failed to load local data: " ++ e)

/-- fetch_data_with_fallback from lib.rs: check network status; when the
website is reachable, attempt the remote fetch — on success persist
best-effort (a save failure is logged and discarded, leaving the store
unchanged) and return the fresh data tagged "online" with timestamp now;
on fetch failure, or when the website is unreachable, fall back to the
local store. -/
def fetch_data_with_fallback (transport : Transport) (outcome : HttpOutcome)
    (env : StoreEnv) (now : Int) (store : Store) (key : String) : FetchOutput :=
  match (check_network_status transport).result with
  | .error e => { result := .error e, store := store, remoteAttempts := 0, fallbackLoads := 0 }
  | .ok network_status =>
    if network_status.can_reach_website then
      match fetch_online_data outcome with
      | .ok online_data =>
        let store' :=
          match save_local_data env now store key online_data with
          | .ok s => s
          | .error _ => store
        { result := .ok { data := online_data, source := "online", timestamp := now }
          store := store'
          remoteAttempts := 1
          fallbackLoads := 0 }
      | .error _ =>
        { result := fallback_load env store key, store := store
          remoteAttempts := 1, fallbackLoads := 1 }
    else
      { result := fallback_load env store key, store := store
        remoteAttempts := 0, fallbackLoads := 1 }

/-- force_refresh_data from lib.rs: require can_reach_website up front,
else fail with the connectivity error without fetching or loading;
otherwise fetch, propagate any fetch error, persist (a save failure DOES
propagate here), and return the fresh data tagged "online". -/
def force_refresh_data (transport : Transport) (outcome : HttpOutcome)
    (env : StoreEnv) (now : Int) (store : Store) (key : String) : FetchOutput :=
  match (check_network_status transport).result with
  | .error e => { result := .error e, store := store, remoteAttempts := 0, fallbackLoads := 0 }
  | .ok network_status =>
    if !network_status.can_reach_website then
      { result := .error "Cannot reach website. Please check your internet connection."
        store := store, remoteAttempts := 0, fallbackLoads := 0 }
    else
      match fetch_online_data outcome with
      | .error e => { result := .error e, store := store, remoteAttempts := 1, fallbackLoads := 0 }
      | .ok online_data =>
        match save_local_data env now store key online_data with
        | .error e => { result := .error e, store := store, remoteAttempts := 1, fallbackLoads := 0 }
        | .ok store' =>
          { result := .ok { data := online_data, source := "online", timestamp := now }
            store := store', remoteAttempts := 1, fallbackLoads := 0 }

/-- An entry of the data directory as the maintenance code observes it:
file stem and extension (Path::file_stem and Path::extension), whether
it is a regular file, and its content. -/
structure DirEntry where
  stem : String
  ext : Option String
  isFile : Bool
  content : FileContent

/-- Environment of the directory-walking operations: whether
get_data_dir succeeds and whether read_dir succeeds. -/
structure DirEnv where
  dirOk : Bool
  readDirOk : Bool

/-- The loop body of get_cache_info: keep an entry iff it is a regular
file with extension json whose content reads and parses as JSON and
carries an integer timestamp field; every other entry is skipped without
aborting the walk. -/
def cache_info_entries : List DirEntry → List (String × Int)
  | [] => []
  | e :: rest =>
    if e.isFile && e.ext == some "json" then
      match e.content with
      | .json parsed =>
        match (jsonGet parsed "timestamp").bind jsonAsI64 with
        | some timestamp => (e.stem, timestamp) :: cache_info_entries rest
        | none => cache_info_entries rest
      | _ => cache_info_entries rest
    else cache_info_entries rest

/-- get_cache_info from lib.rs: error when the data directory cannot be
created or read; otherwise the stem-to-timestamp map collected by the
per-entry loop (the HashMap is modeled as the list of inserted pairs). -/
def get_cache_info (denv : DirEnv) (dir : List DirEntry) :
    Except String (List (String × Int)) :=
  if !denv.dirOk then .error "Failed to create data directory"
  else if !denv.readDirOk then .error "Failed to read data directory"
  else .ok (cache_info_entries dir)

/-- The bulk-clear loop of clear_local_cache: remove every regular file
with extension json whose removal succeeds; a removal failure is logged
and the entry kept; everything else is left untouched. deleteFails gives,
per file stem, whether fs::remove_file fails on that file. -/
def clear_entries (deleteFails : String → Bool) : List DirEntry → List DirEntry
  | [] => []
  | e :: rest =>
    if e.isFile && e.ext == some "json" then
      if deleteFails e.stem then e :: clear_entries deleteFails rest
      else clear_entries deleteFails rest
    else e :: clear_entries deleteFails rest

/-- clear_local_cache from lib.rs: with a specific key, remove that
file of that key when it exists, propagating a removal failure; with no key,
walk the directory and best-effort remove every json file. Returns the
directory contents after the call. -/
def clear_local_cache (denv : DirEnv) (deleteFails : String → Bool)
    (dir : List DirEntry) (key : Option String) : Except String (List DirEntry) :=
  if !denv.dirOk then .error "Failed to create data directory"
  else
    match key with
    | some specific_key =>
      if dir.any (fun e => e.stem == specific_key && e.ext == some "json") then
        if deleteFails specific_key then .error "Failed to remove data file"
        else .ok (dir.filter (fun e => !(e.stem == specific_key && e.ext == some "json")))
      else .ok dir
    | none =>
      if !denv.readDirOk then .error "Failed to read data directory"
      else .ok (clear_entries deleteFails dir)

/-! Helper lemmas. -/

/-- check_network_status always returns Ok, with can_reach_website the
conjunction of general connectivity and the website probe. -/
lemma check_network_status_result (t : Transport) :
    (check_network_status t).result =
      .ok { is_online := (check_internet_connectivity t).1
            can_reach_website :=
              (check_internet_connectivity t).1 && check_website_connectivity t } := by
  unfold check_network_status
  by_cases h : (check_internet_connectivity t).1 <;> simp [h]

/-- C5: check_network_status computes is_online first and, when it is
false, reports can_reach_website = false with zero website probes; the
operation always succeeds with a NetworkStatus, never an error. -/
theorem network_status_offline_short_circuit (t : Transport) :
    (∃ ns, (check_network_status t).result = .ok ns) ∧
    ((check_internet_connectivity t).1 = false →
      (check_network_status t).result =
        .ok { is_online := false, can_reach_website := false } ∧
      (check_network_status t).websiteProbes = 0) := by
  refine ⟨⟨_, check_network_status_result t⟩, fun h => ⟨?_, ?_⟩⟩
  · rw [check_network_status_result, h]
    simp
  · unfold check_network_status
    simp [h]

/-- Witness for C5 at the transport where every probe fails. -/
theorem network_status_offline_short_circuit_witness :
    (check_network_status (fun _ => none)).result =
      .ok { is_online := false, can_reach_website := false } ∧
    (check_network_status (fun _ => none)).websiteProbes = 0 :=
  (network_status_offline_short_circuit (fun _ => none)).2 rfl

/-- C2: a successful save followed by a load of the same key yields the
saved value with source "local" (and the save-time timestamp). -/
theorem save_then_load_roundtrip (env : StoreEnv) (now : Int) (store : Store)
    (key : String) (v : Json) (store' : Store)
    (h : save_local_data env now store key v = .ok store') :
    load_local_data env store' key =
      .ok (some { data := v, source := "local", timestamp := now }) := by
  unfold save_local_data get_data_file_path at h
  by_cases hd : env.dirOk
  · by_cases hw : env.writeOk
    · simp only [hd, if_true, hw] at h
      cases h
      unfold load_local_data get_data_file_path
      simp [hd, jsonGet, jsonAsI64, List.lookup]
    · simp [hd, hw] at h
  · simp [hd] at h

/-- Witness for C2: save the number 7 under key "k" at time 5, load it
back. -/
theorem save_then_load_roundtrip_witness :
    load_local_data { dirOk := true, writeOk := true }
      (fun k => if k = "k"
        then some (.json (.obj [("data", .num 7), ("timestamp", .num 5)]))
        else none) "k"
      = .ok (some { data := .num 7, source := "local", timestamp := 5 }) :=
  save_then_load_roundtrip { dirOk := true, writeOk := true } 5 (fun _ => none)
    "k" (.num 7) _ rfl

/-- C6: load returns none for a never-saved key, a hard error for a file
that fails to parse as JSON, and succeeds on any file that parses, with
a missing or non-integer timestamp coerced to 0 and a missing data field
coerced to null. -/
theorem load_schema_drift_tolerance (env : StoreEnv) (store : Store) (key : String)
    (hdir : env.dirOk = true) :
    (store key = none → load_local_data env store key = .ok none) ∧
    (∀ e, store key = some (.raw e) →
      load_local_data env store key = .error ("Failed to parse data file: " ++ e)) ∧
    (∀ j, store key = some (.json j) →
      ∃ r, load_local_data env store key = .ok (some r)) ∧
    (∀ j, store key = some (.json j) →
      (jsonGet j "timestamp").bind jsonAsI64 = none →
      ∃ r, load_local_data env store key = .ok (some r) ∧ r.timestamp = 0) ∧
    (∀ j, store key = some (.json j) →
      jsonGet j "data" = none →
      ∃ r, load_local_data env store key = .ok (some r) ∧ r.data = Json.null) := by
  unfold load_local_data get_data_file_path
  refine ⟨fun h => ?_, fun e h => ?_, fun j h => ?_, fun j h ht => ?_, fun j h hd => ?_⟩
  · simp [hdir, h]
  · simp [hdir, h]
  · exact ⟨{ data := (jsonGet j "data").getD Json.null, source := "local",
             timestamp := ((jsonGet j "timestamp").bind jsonAsI64).getD 0 },
           by simp [hdir, h]⟩
  · exact ⟨{ data := (jsonGet j "data").getD Json.null, source := "local",
             timestamp := ((jsonGet j "timestamp").bind jsonAsI64).getD 0 },
           by simp [hdir, h], by simp [ht]⟩
  · exact ⟨{ data := (jsonGet j "data").getD Json.null, source := "local",
             timestamp := ((jsonGet j "timestamp").bind jsonAsI64).getD 0 },
           by simp [hdir, h], by simp [hd]⟩

/-- Witness for C6: a drifted envelope with a string timestamp and no
data field loads with timestamp 0. -/
theorem load_schema_drift_tolerance_witness :
    ∃ r, load_local_data { dirOk := true, writeOk := true }
      (fun _ => some (.json (.obj [("timestamp", .str "soon")]))) "k"
      = .ok (some r) ∧ r.timestamp = 0 :=
  (load_schema_drift_tolerance { dirOk := true, writeOk := true }
      (fun _ => some (.json (.obj [("timestamp", .str "soon")]))) "k" rfl).2.2.2.1
    (.obj [("timestamp", .str "soon")]) rfl rfl

/-- When the website is not reachable, the tolerant fetch goes straight
to the fallback load, with no remote attempt. -/
lemma fetch_unreachable_eq (transport : Transport) (outcome : HttpOutcome)
    (env : StoreEnv) (now : Int) (store : Store) (key : String)
    (h : ((check_internet_connectivity transport).1 && check_website_connectivity transport) = false) :
    fetch_data_with_fallback transport outcome env now store key =
      { result := fallback_load env store key, store := store
        remoteAttempts := 0, fallbackLoads := 1 } := by
  unfold fetch_data_with_fallback
  rw [check_network_status_result]
  simp [h]

/-- When the website is reachable but the remote fetch fails, the
tolerant fetch falls through to the fallback load after one remote
attempt. -/
lemma fetch_reachable_error_eq (transport : Transport) (outcome : HttpOutcome)
    (env : StoreEnv) (now : Int) (store : Store) (key : String) (e : String)
    (h : ((check_internet_connectivity transport).1 && check_website_connectivity transport) = true)
    (he : fetch_online_data outcome = .error e) :
    fetch_data_with_fallback transport outcome env now store key =
      { result := fallback_load env store key, store := store
        remoteAttempts := 1, fallbackLoads := 1 } := by
  unfold fetch_data_with_fallback
  rw [check_network_status_result]
  simp [h, he]

/-- C1: with the target unreachable and a cached envelope for the key,
the tolerant fetch returns the cached data with source "local" and the
stored capture time, makes no remote attempt, and leaves the store
unchanged. -/
theorem fetch_fallback_offline_serves_cache (transport : Transport)
    (outcome : HttpOutcome) (env : StoreEnv) (now : Int) (store : Store)
    (key : String) (d : Json) (t : Int)
    (hdir : env.dirOk = true)
    (hnet : ∀ ns, (check_network_status transport).result = .ok ns →
      ns.can_reach_website = false)
    (hstore : store key = some (.json (.obj [("data", d), ("timestamp", .num t)]))) :
    fetch_data_with_fallback transport outcome env now store key =
      { result := .ok { data := d, source := "local", timestamp := t }
        store := store, remoteAttempts := 0, fallbackLoads := 1 } := by
  have h : ((check_internet_connectivity transport).1 && check_website_connectivity transport) = false :=
    hnet _ (check_network_status_result transport)
  rw [fetch_unreachable_eq transport outcome env now store key h]
  unfold fallback_load load_local_data get_data_file_path
  simp [hdir, hstore, jsonGet, jsonAsI64, List.lookup]

/-- Witness for C1: everything offline, key "k" cached with value 7 at
time 5. -/
theorem fetch_fallback_offline_serves_cache_witness :
    fetch_data_with_fallback (fun _ => none) (.sendErr "timed out")
      { dirOk := true, writeOk := true } 9
      (fun _ => some (.json (.obj [("data", .num 7), ("timestamp", .num 5)]))) "k" =
      { result := .ok { data := .num 7, source := "local", timestamp := 5 }
        store := fun _ => some (.json (.obj [("data", .num 7), ("timestamp", .num 5)]))
        remoteAttempts := 0, fallbackLoads := 1 } :=
  fetch_fallback_offline_serves_cache (fun _ => none) (.sendErr "timed out")
    { dirOk := true, writeOk := true } 9
    (fun _ => some (.json (.obj [("data", .num 7), ("timestamp", .num 5)]))) "k"
    (.num 7) 5 rfl (fun ns hns => by cases hns; rfl) rfl

/-- C3: with the website reachable and a 2xx response whose body parses
as JSON, the tolerant fetch returns that data with source "online" and
timestamp now, for every store environment — in particular when the
best-effort persist fails. -/
theorem fetch_online_success_despite_persist_failure (transport : Transport)
    (env : StoreEnv) (now : Int) (store : Store) (key : String)
    (status : Nat) (j : Json)
    (hnet : ∀ ns, (check_network_status transport).result = .ok ns →
      ns.can_reach_website = true)
    (hstatus : status_is_success status = true) :
    (fetch_data_with_fallback transport (.resp status (.ok j)) env now store key).result =
      .ok { data := j, source := "online", timestamp := now } := by
  have h : ((check_internet_connectivity transport).1 && check_website_connectivity transport) = true :=
    hnet _ (check_network_status_result transport)
  unfold fetch_data_with_fallback
  rw [check_network_status_result]
  simp [h, fetch_online_data, hstatus]

/-- Witness for C3: reachable transport, status 200, body 7, but a store
whose directory and write both fail; the fetch still succeeds. -/
theorem fetch_online_success_despite_persist_failure_witness :
    (fetch_data_with_fallback (fun _ => some 200) (.resp 200 (.ok (.num 7)))
      { dirOk := false, writeOk := false } 9 (fun _ => none) "k").result =
      .ok { data := .num 7, source := "online", timestamp := 9 } :=
  fetch_online_success_despite_persist_failure (fun _ => some 200)
    { dirOk := false, writeOk := false } 9 (fun _ => none) "k" 200 (.num 7)
    (fun ns hns => by cases hns; rfl) rfl

/-- C4: with the target unreachable, force refresh fails with the
connectivity error, makes no remote attempt and no fallback load, and
leaves the store unchanged. -/
theorem force_refresh_offline_fails_fast (transport : Transport)
    (outcome : HttpOutcome) (env : StoreEnv) (now : Int) (store : Store)
    (key : String)
    (hnet : ∀ ns, (check_network_status transport).result = .ok ns →
      ns.can_reach_website = false) :
    force_refresh_data transport outcome env now store key =
      { result := .error "Cannot reach website. Please check your internet connection."
        store := store, remoteAttempts := 0, fallbackLoads := 0 } := by
  have h : ((check_internet_connectivity transport).1 && check_website_connectivity transport) = false :=
    hnet _ (check_network_status_result transport)
  unfold force_refresh_data
  rw [check_network_status_result]
  simp [h]

/-- Witness for C4 at a fully offline transport and a populated store. -/
theorem force_refresh_offline_fails_fast_witness :
    force_refresh_data (fun _ => none) (.resp 200 (.ok (.num 7)))
      { dirOk := true, writeOk := true } 9
      (fun _ => some (.json (.obj [("data", .num 7), ("timestamp", .num 5)]))) "k" =
      { result := .error "Cannot reach website. Please check your internet connection."
        store := fun _ => some (.json (.obj [("data", .num 7), ("timestamp", .num 5)]))
        remoteAttempts := 0, fallbackLoads := 0 } :=
  force_refresh_offline_fails_fast (fun _ => none) (.resp 200 (.ok (.num 7)))
    { dirOk := true, writeOk := true } 9
    (fun _ => some (.json (.obj [("data", .num 7), ("timestamp", .num 5)]))) "k"
    (fun ns hns => by cases hns; rfl)

/-- C8: when the remote path is unavailable or fails, a missing cache
entry yields the no-data error, and a cache entry the store cannot parse
propagates the store error as the fetch failure. -/
theorem fetch_fallback_exhausted_errors (transport : Transport)
    (outcome : HttpOutcome) (env : StoreEnv) (now : Int) (store : Store)
    (key : String)
    (hdir : env.dirOk = true)
    (hremote : (∀ ns, (check_network_status transport).result = .ok ns →
        ns.can_reach_website = false) ∨
      ∃ e, fetch_online_data outcome = .error e) :
    (store key = none →
      (fetch_data_with_fallback transport outcome env now store key).result =
        .error "No data available online or locally") ∧
    (∀ e, store key = some (.raw e) →
      (fetch_data_with_fallback transport outcome env now store key).result =
        .error ("Failed to load local data: " ++ ("Failed to parse data file: " ++ e))) := by
  have hres : (fetch_data_with_fallback transport outcome env now store key).result =
      fallback_load env store key := by
    by_cases h : ((check_internet_connectivity transport).1 && check_website_connectivity transport) = true
    · rcases hremote with hoff | ⟨e, he⟩
      · exact absurd (hoff _ (check_network_status_result transport)) (by simp [h])
      · rw [fetch_reachable_error_eq transport outcome env now store key e h he]
    · rw [fetch_unreachable_eq transport outcome env now store key (by simpa using h)]
  refine ⟨fun hnone => ?_, fun e hraw => ?_⟩
  · rw [hres]
    unfold fallback_load load_local_data get_data_file_path
    simp [hdir, hnone]
  · rw [hres]
    unfold fallback_load load_local_data get_data_file_path
    simp [hdir, hraw]

/-- Witness for C8: offline transport and an empty store give the
no-data error. -/
theorem fetch_fallback_exhausted_errors_witness :
    (fetch_data_with_fallback (fun _ => none) (.sendErr "timed out")
      { dirOk := true, writeOk := true } 9 (fun _ => none) "k").result =
      .error "No data available online or locally" :=
  (fetch_fallback_exhausted_errors (fun _ => none) (.sendErr "timed out")
    { dirOk := true, writeOk := true } 9 (fun _ => none) "k" rfl
    (Or.inl (fun ns hns => by cases hns; rfl))).1 rfl

/-- Closed form of the probe loop: the result is whether any URL
completes, and the probed URLs are the failing ones up to and including
the first success, when there is one. -/
lemma probeUrls_eq (t : Transport) (urls : List String) :
    probeUrls t urls =
      (urls.any (fun u => (t u).isSome),
       urls.takeWhile (fun u => !(t u).isSome) ++
         (urls.dropWhile (fun u => !(t u).isSome)).take 1) := by
  induction urls with
  | nil => rfl
  | cons u rest ih =>
    rcases htu : t u with _ | s
    · simp [probeUrls, htu, List.takeWhile_cons, List.dropWhile_cons, ih]
    · simp [probeUrls, htu, List.takeWhile_cons, List.dropWhile_cons]

/-- Auxiliary: the head of dropWhile fails the predicate. -/
lemma dropWhile_head_false {α : Type} (p : α → Bool) (l : List α) (x : α)
    (xs : List α) (h : l.dropWhile p = x :: xs) : p x = false := by
  induction l with
  | nil => simp at h
  | cons a as ih =>
    rw [List.dropWhile_cons] at h
    by_cases hp : p a
    · exact ih (by simpa [hp] using h)
    · rw [if_neg (by simp [hp])] at h
      cases h
      simpa using hp

/-- C9: the internet probe walks the fixed URL list in order; it is
false exactly when every URL fails (then all URLs were probed), the
probed URLs are an initial segment of the list, all but the last probed
URL failed, and when the result is true the last probed URL completed
with some status — any status. -/
theorem internet_probe_first_success (transport : Transport) (result : Bool)
    (probed : List String)
    (h : check_internet_connectivity transport = (result, probed)) :
    (result = false ↔ ∀ u ∈ test_urls, transport u = none) ∧
    (∃ rest, probed ++ rest = test_urls) ∧
    (∀ u ∈ probed.dropLast, transport u = none) ∧
    (result = true → ∃ u s, probed.getLast? = some u ∧ transport u = some s) ∧
    (result = false → probed = test_urls) := by
  rw [check_internet_connectivity, probeUrls_eq] at h
  have hr : result = test_urls.any (fun u => (transport u).isSome) :=
    congrArg Prod.fst h.symm
  have hp : probed = test_urls.takeWhile (fun u => !(transport u).isSome) ++
      (test_urls.dropWhile (fun u => !(transport u).isSome)).take 1 :=
    congrArg Prod.snd h.symm
  refine ⟨?_, ?_, ?_, ?_, ?_⟩
  · rw [hr, List.any_eq_false]
    refine ⟨fun hall u hu => ?_, fun hall u hu => ?_⟩
    · exact Option.not_isSome_iff_eq_none.1 (hall u hu)
    · simp [hall u hu]
  · refine ⟨(test_urls.dropWhile (fun u => !(transport u).isSome)).drop 1, ?_⟩
    rw [hp, List.append_assoc, List.take_append_drop,
      List.takeWhile_append_dropWhile]
  · intro u hu
    have hmem : u ∈ test_urls.takeWhile (fun u => !(transport u).isSome) := by
      rcases hd : test_urls.dropWhile (fun u => !(transport u).isSome) with _ | ⟨x, xs⟩
      · rw [hp, hd] at hu
        exact List.dropLast_subset _ (by simpa using hu)
      · rw [hp, hd] at hu
        simpa using hu
    have := List.mem_takeWhile_imp hmem
    simpa [Option.isSome_iff_exists] using this
  · intro htrue
    rcases hd : test_urls.dropWhile (fun u => !(transport u).isSome) with _ | ⟨x, xs⟩
    · exfalso
      rw [hr] at htrue
      rw [List.dropWhile_eq_nil_iff] at hd
      rcases List.any_eq_true.1 htrue with ⟨u, hu, hsome⟩
      have := hd u hu
      simp [hsome] at this
    · refine ⟨x, ?_⟩
      have hx : (transport x).isSome = true := by
        have := dropWhile_head_false (fun u => !(transport u).isSome) test_urls x xs hd
        simpa using this
      rcases Option.isSome_iff_exists.1 hx with ⟨s, hs⟩
      refine ⟨s, ?_, hs⟩
      rw [hp, hd]
      simp [List.getLast?_concat]
  · intro hfalse
    rw [hr] at hfalse
    have hall : ∀ u ∈ test_urls, (transport u).isSome = false := by
      intro u hu
      simpa using List.any_eq_false.1 hfalse u hu
    have hd : test_urls.dropWhile (fun u => !(transport u).isSome) = [] := by
      rw [List.dropWhile_eq_nil_iff]
      intro u hu
      simp [hall u hu]
    rw [hp, hd]
    have htake : test_urls.takeWhile (fun u => !(transport u).isSome) = test_urls := by
      conv_rhs => rw [← List.takeWhile_append_dropWhile
        (p := fun u => !(transport u).isSome) (l := test_urls)]
      rw [hd, List.append_nil]
    rw [List.take_nil, List.append_nil, htake]

/-- Witness for C9: the first endpoint completes with status 500; the
probe stops there with result true. -/
theorem internet_probe_first_success_witness :
    ((true = false) ↔ ∀ u ∈ test_urls,
      (fun u => if u = "https://www.google.com" then some 500 else none) u = none) ∧
    (∃ rest, ["https://www.google.com"] ++ rest = test_urls) ∧
    (∀ u ∈ (["https://www.google.com"] : List String).dropLast,
      (fun u => if u = "https://www.google.com" then some 500 else none) u = none) ∧
    (true = true → ∃ u s, (["https://www.google.com"] : List String).getLast? = some u ∧
      (fun u => if u = "https://www.google.com" then some 500 else none) u = some s) ∧
    (true = false → ["https://www.google.com"] = test_urls) :=
  internet_probe_first_success
    (fun u => if u = "https://www.google.com" then some 500 else none)
    true ["https://www.google.com"] (by simp [check_internet_connectivity,
      test_urls, probeUrls])

/-- The bulk-clear loop keeps exactly the entries that are not
deletable json files or whose deletion fails. -/
lemma clear_entries_eq_filter (deleteFails : String → Bool) (dir : List DirEntry) :
    clear_entries deleteFails dir =
      dir.filter (fun e => !(e.isFile && e.ext == some "json" && !deleteFails e.stem)) := by
  induction dir with
  | nil => rfl
  | cons e rest ih =>
    unfold clear_entries
    cases hf : e.isFile with
    | false => simp [List.filter_cons, hf, ih]
    | true =>
      cases hx : (e.ext == some "json") with
      | false => simp [List.filter_cons, hf, hx, ih]
      | true =>
        cases h2 : deleteFails e.stem with
        | false => simp [List.filter_cons, hf, hx, h2, ih]
        | true => simp [List.filter_cons, hf, hx, h2, ih]

/-- C10: bulk clear returns Ok with exactly the non-json entries, the
non-file entries, and the json files whose deletion failed left in
place; every json file whose deletion succeeds is removed, independently
of failures on other files. -/
theorem bulk_clear_frame (denv : DirEnv) (deleteFails : String → Bool)
    (dir : List DirEntry)
    (hdir : denv.dirOk = true) (hread : denv.readDirOk = true) :
    clear_local_cache denv deleteFails dir none =
      .ok (dir.filter (fun e => !(e.isFile && e.ext == some "json" && !deleteFails e.stem))) ∧
    (∀ e ∈ dir, ¬(e.isFile = true ∧ e.ext = some "json") →
      e ∈ dir.filter (fun e => !(e.isFile && e.ext == some "json" && !deleteFails e.stem))) ∧
    (∀ e ∈ dir, e.isFile = true → e.ext = some "json" → deleteFails e.stem = true →
      e ∈ dir.filter (fun e => !(e.isFile && e.ext == some "json" && !deleteFails e.stem))) ∧
    (∀ e ∈ dir, e.isFile = true → e.ext = some "json" → deleteFails e.stem = false →
      e ∉ dir.filter (fun e => !(e.isFile && e.ext == some "json" && !deleteFails e.stem))) := by
  refine ⟨?_, ?_, ?_, ?_⟩
  · unfold clear_local_cache
    simp [hdir, hread, clear_entries_eq_filter]
  · intro e he hn
    rw [List.mem_filter]
    refine ⟨he, ?_⟩
    by_cases hf : e.isFile = true
    · have hx : e.ext ≠ some "json" := fun hx => hn ⟨hf, hx⟩
      simp [hf, hx]
    · have hf' : e.isFile = false := by simpa using hf
      simp [hf']
  · intro e he _ _ hfail
    rw [List.mem_filter]
    exact ⟨he, by simp [hfail]⟩
  · intro e he hf hx hok hmem
    rw [List.mem_filter] at hmem
    simp [hf, hx, hok] at hmem

/-- Witness for C10: a directory with a deletable json file, a json file
whose deletion fails, a non-json file and a subdirectory; only the first
is removed. -/
theorem bulk_clear_frame_witness :
    clear_local_cache { dirOk := true, readDirOk := true }
      (fun stem => stem = "locked")
      [{ stem := "a", ext := some "json", isFile := true, content := .json .null },
       { stem := "locked", ext := some "json", isFile := true, content := .json .null },
       { stem := "notes", ext := some "txt", isFile := true, content := .raw "x" },
       { stem := "sub", ext := none, isFile := false, content := .raw "x" }] none =
      .ok [{ stem := "locked", ext := some "json", isFile := true, content := .json .null },
           { stem := "notes", ext := some "txt", isFile := true, content := .raw "x" },
           { stem := "sub", ext := none, isFile := false, content := .raw "x" }] := by
  have h := (bulk_clear_frame { dirOk := true, readDirOk := true }
    (fun stem => stem = "locked")
    [{ stem := "a", ext := some "json", isFile := true, content := .json .null },
     { stem := "locked", ext := some "json", isFile := true, content := .json .null },
     { stem := "notes", ext := some "txt", isFile := true, content := .raw "x" },
     { stem := "sub", ext := none, isFile := false, content := .raw "x" }] rfl rfl).1
  rw [h]
  rfl

/-- Membership in the listing loop output: a pair appears exactly when
some directory entry is a json regular file with that stem whose content
parses as JSON and carries that integer timestamp. -/
lemma cache_info_entries_mem (dir : List DirEntry) (stem : String) (ts : Int) :
    (stem, ts) ∈ cache_info_entries dir ↔
      ∃ e ∈ dir, e.stem = stem ∧ e.isFile = true ∧ e.ext = some "json" ∧
        ∃ j, e.content = FileContent.json j ∧
          (jsonGet j "timestamp").bind jsonAsI64 = some ts := by
  induction dir with
  | nil => simp [cache_info_entries]
  | cons e rest ih =>
    unfold cache_info_entries
    by_cases hc : (e.isFile && (e.ext == some "json")) = true
    · obtain ⟨hf, hx⟩ : e.isFile = true ∧ e.ext = some "json" := by simpa using hc
      rw [if_pos hc]
      rcases hcont : e.content with j | er | er
      · rcases hts : (jsonGet j "timestamp").bind jsonAsI64 with _ | t
        · simp only [hts]
          rw [ih]
          constructor
          · rintro ⟨e', he', h⟩
            exact ⟨e', List.mem_cons_of_mem e he', h⟩
          · rintro ⟨e', he', h1, h2, h3, j', hj', hts'⟩
            rcases List.mem_cons.mp he' with rfl | he'
            · rw [hcont] at hj'
              cases hj'
              rw [hts] at hts'
              cases hts'
            · exact ⟨e', he', h1, h2, h3, j', hj', hts'⟩
        · simp only [hts]
          rw [List.mem_cons, ih]
          constructor
          · rintro (hpair | ⟨e', he', h⟩)
            · rw [Prod.mk.injEq] at hpair
              obtain ⟨h1, h2⟩ := hpair
              subst h2
              exact ⟨e, List.mem_cons_self e rest, h1.symm, hf, hx, j, hcont, hts⟩
            · exact ⟨e', List.mem_cons_of_mem e he', h⟩
          · rintro ⟨e', he', h1, h2, h3, j', hj', hts'⟩
            rcases List.mem_cons.mp he' with rfl | he'
            · rw [hcont] at hj'
              cases hj'
              rw [hts] at hts'
              cases hts'
              exact Or.inl (by rw [h1])
            · exact Or.inr ⟨e', he', h1, h2, h3, j', hj', hts'⟩
      · simp only []
        rw [ih]
        constructor
        · rintro ⟨e', he', h⟩
          exact ⟨e', List.mem_cons_of_mem e he', h⟩
        · rintro ⟨e', he', h1, h2, h3, j', hj', hts'⟩
          rcases List.mem_cons.mp he' with rfl | he'
          · rw [hcont] at hj'
            cases hj'
          · exact ⟨e', he', h1, h2, h3, j', hj', hts'⟩
      · simp only []
        rw [ih]
        constructor
        · rintro ⟨e', he', h⟩
          exact ⟨e', List.mem_cons_of_mem e he', h⟩
        · rintro ⟨e', he', h1, h2, h3, j', hj', hts'⟩
          rcases List.mem_cons.mp he' with rfl | he'
          · rw [hcont] at hj'
            cases hj'
          · exact ⟨e', he', h1, h2, h3, j', hj', hts'⟩
    · rw [if_neg hc]
      rw [ih]
      constructor
      · rintro ⟨e', he', h⟩
        exact ⟨e', List.mem_cons_of_mem e he', h⟩
      · rintro ⟨e', he', h1, h2, h3, hrest⟩
        rcases List.mem_cons.mp he' with rfl | he'
        · exact absurd (by simp [h2, h3]) hc
        · exact ⟨e', he', h1, h2, h3, hrest⟩

/-- C7 counterexample: a managed file whose content parses as JSON but
lacks an integer timestamp field is excluded from the listing, so the
listing is empty although the directory holds one parseable managed
file. -/
theorem cache_listing_counterexample :
    get_cache_info { dirOk := true, readDirOk := true }
      [{ stem := "a", ext := some "json", isFile := true
         content := .json (.obj [("data", .num 1)]) }] = .ok [] := rfl

/-- C7 amended: the listing walks all entries and returns Ok; a pair
appears exactly for a managed regular json file whose content parses as
JSON and carries an integer timestamp field — a file that fails to parse
or lacks such a field is skipped without aborting the walk. -/
theorem cache_listing_amended (denv : DirEnv) (dir : List DirEntry)
    (hdir : denv.dirOk = true) (hread : denv.readDirOk = true) :
    get_cache_info denv dir = .ok (cache_info_entries dir) ∧
    ∀ stem ts, ((stem, ts) ∈ cache_info_entries dir ↔
      ∃ e ∈ dir, e.stem = stem ∧ e.isFile = true ∧ e.ext = some "json" ∧
        ∃ j, e.content = FileContent.json j ∧
          (jsonGet j "timestamp").bind jsonAsI64 = some ts) :=
  ⟨by unfold get_cache_info; simp [hdir, hread],
   fun stem ts => cache_info_entries_mem dir stem ts⟩

/-- Witness for the amended C7: a directory with one well-formed entry
and one unparseable entry lists exactly the well-formed one. -/
theorem cache_listing_amended_witness :
    get_cache_info { dirOk := true, readDirOk := true }
      [{ stem := "a", ext := some "json", isFile := true
         content := .json (.obj [("timestamp", .num 5)]) },
       { stem := "b", ext := some "json", isFile := true
         content := .raw "oops" }] =
      .ok (cache_info_entries
        [{ stem := "a", ext := some "json", isFile := true
           content := .json (.obj [("timestamp", .num 5)]) },
         { stem := "b", ext := some "json", isFile := true
           content := .raw "oops" }]) :=
  (cache_listing_amended { dirOk := true, readDirOk := true }
    [{ stem := "a", ext := some "json", isFile := true
       content := .json (.obj [("timestamp", .num 5)]) },
     { stem := "b", ext := some "json", isFile := true
       content := .raw "oops" }] rfl rfl).1

end Routine
